import Mathlib

/-!
Shallow embedding of the cost-calculation engine of the AppToCloudAdvisor
repository (`src/server/cost-calculator.ts`, the pricing service
`src/unnamed/part_012`, the seeder `src/unnamed/part_011`,
`src/server/scan-cost-optimization.ts`, `src/server/storage.ts`).

JavaScript numbers are modelled as exact rationals (`ℚ`); `Math.ceil` is the
integer ceiling; `Math.min` / `Math.max` are `min` / `max`.  The JavaScript
truthiness idiom `x || d` on a possibly-missing numeric field is modelled by
`jsOrQ : Option ℚ → ℚ → ℚ` (a missing field or the falsy number `0` falls
back to the default, any other number is kept), and on a string field by
`jsOrStr` (a missing field or the empty string falls back).  Fallible code
returns `Except CalcError _`.  A small JavaScript-value model (`JSVal`) at
the end captures what the calculator actually reads off the seeded
`gamelift_services` JSON row, whose `flexMatch` value is an object rather
than a number.
-/

namespace CostCalc

/-- Fleet type, source union type `fleetType: 'spot' | 'on-demand'`
(`cost-calculator.ts`). -/
inductive FleetType where
  | spot
  | onDemand
deriving DecidableEq, Repr

/-- Source interface `CostParameters` (`cost-calculator.ts`). -/
structure CostParameters where
  concurrentPlayers : ℚ
  sessionDurationHours : ℚ
  regionsCount : ℚ
  instanceType : String
  fleetType : FleetType
  storageGB : ℚ
  monthlyDataTransferGB : ℚ
deriving DecidableEq, Repr

/-- Source interface `InstancePricing` (pricing service).  The `hourlyRate`
field is an `Option ℚ`: the pricing rows travel through the untyped
`pricingData` JSON column of the storage layer and the consumer
(`getInstancePricing` in `cost-calculator.ts`) reads it defensively as
`instanceData?.hourlyRate`, so a stored row may lack the field (`none`).
All seeded rows carry `some` rates. -/
structure InstancePricing where
  instanceType : String
  vcpus : ℚ
  memory : String
  hourlyRate : Option ℚ
  gameLiftMultiplier : ℚ
deriving DecidableEq, Repr

/-- The numeric fields of the pricing store that `calculateCosts` reads: the
per-region `ec2_instance` tables, and the scalar keys it dereferences on the
`storage`, `data_transfer` and `gamelift_services` rows
(`pricingData.s3Standard`, `pricingData.internetOut`,
`pricingData.flexMatch`, `pricingData.monitoring`).  A `none` field models a
missing or non-numeric key on the stored JSON object. -/
structure PricingStore where
  ec2Tables : List (String × List InstancePricing)
  s3Standard : Option ℚ
  internetOut : Option ℚ
  flexMatch : Option ℚ
  monitoring : Option ℚ
deriving DecidableEq, Repr

/-- JavaScript `v || d` on a possibly-missing numeric field: a missing field
(`undefined`) and the falsy number `0` both yield the default. -/
def jsOrQ (v : Option ℚ) (d : ℚ) : ℚ :=
  match v with
  | some r => if r = 0 then d else r
  | none => d

/-- JavaScript `v || d` on a possibly-missing string field: a missing field
and the falsy empty string both yield the default. -/
def jsOrStr (v : Option String) (d : String) : String :=
  match v with
  | some s => if s = "" then d else s
  | none => d

/-- Region lookup in a list of `(region, entries)` pairs; models both the
`Map`-backed `storage.getPricingByServiceAndRegion('ec2_instance', region)`
(`storage.ts`) and the record access `EC2_INSTANCE_PRICING[region]` of the
pricing service. -/
def lookupRegion (tables : List (String × List InstancePricing))
    (region : String) : Option (List InstancePricing) :=
  (tables.find? (fun p => p.1 == region)).map (fun p => p.2)

/-- Model of `Math.ceil` on a rational, computably as `-⌊-q⌋` using
Batteries' `Rat.floor`; `mathCeil_eq_ceil` identifies it with Mathlib's
`⌈q⌉`. -/
def mathCeil (q : ℚ) : ℤ :=
  -(Rat.floor (-q))

theorem ratFloor_eq_floor (q : ℚ) : Rat.floor q = ⌊q⌋ :=
  (Rat.floor_def' q).trans Rat.floor_def.symm

theorem mathCeil_eq_ceil (q : ℚ) : mathCeil q = ⌈q⌉ := by
  unfold mathCeil
  rw [ratFloor_eq_floor, Int.floor_neg, neg_neg]

/-- Source `calculateInstancesNeeded` (`cost-calculator.ts`):
`Math.ceil(concurrentPlayers / playersPerInstance)` with the default
`playersPerInstance = 50`. -/
def calculateInstancesNeeded (concurrentPlayers : ℚ)
    (playersPerInstance : ℚ := 50) : ℚ :=
  (mathCeil (concurrentPlayers / playersPerInstance) : ℤ)

/-- Source `getInstancePricing` (`cost-calculator.ts`): looks the region up
in storage, finds the entry with the requested `instanceType`, and returns
`instanceData?.hourlyRate || null` — a missing region, a missing entry, a
missing `hourlyRate` field and a zero (falsy) rate all yield `none`; a
different region's table is never consulted on this path. -/
def getInstancePricing (store : PricingStore) (instanceType region : String) :
    Option ℚ :=
  match lookupRegion store.ec2Tables region with
  | none => none
  | some entries =>
    match entries.find? (fun item => item.instanceType == instanceType) with
    | none => none
    | some instanceData =>
      match instanceData.hourlyRate with
      | none => none
      | some r => if r = 0 then none else some r

/-- The single error the calculator raises, source
`throw new Error('Pricing not found for instance type ... in ...')`
(`cost-calculator.ts`); no other throw exists in the calculator, and in
particular it performs no input validation. -/
inductive CalcError where
  | pricingNotFound (instanceType region : String)
deriving DecidableEq, Repr

/-- Component `compute` of `CostBreakdown` (`cost-calculator.ts`). -/
structure ComputeCosts where
  hourlyRate : ℚ
  instancesNeeded : ℚ
  monthlyHours : ℚ
  monthlyCost : ℚ
deriving DecidableEq, Repr

/-- Component `storage` of `CostBreakdown`. -/
structure StorageCosts where
  sizeGB : ℚ
  monthlyCost : ℚ
deriving DecidableEq, Repr

/-- Component `dataTransfer` of `CostBreakdown`. -/
structure DataTransferCosts where
  monthlyGB : ℚ
  monthlyCost : ℚ
deriving DecidableEq, Repr

/-- Component `gameliftServices` of `CostBreakdown` (numeric view; what the
seeded store actually holds under these keys is examined separately by the
JS-value model below). -/
structure GameliftServiceCosts where
  matchmakingCost : ℚ
  monitoringCost : ℚ
  total : ℚ
deriving DecidableEq, Repr

/-- Component `total` of `CostBreakdown`. -/
structure TotalCosts where
  initialSetup : ℚ
  monthlyOperational : ℚ
deriving DecidableEq, Repr

/-- Source interface `CostBreakdown` (`cost-calculator.ts`). -/
structure CostBreakdown where
  compute : ComputeCosts
  storage : StorageCosts
  dataTransfer : DataTransferCosts
  gameliftServices : GameliftServiceCosts
  total : TotalCosts
deriving DecidableEq, Repr

/-- Body of `calculateCosts` (`cost-calculator.ts`) after the pricing lookup
succeeded with rate `instanceHourlyRate`, transcribed let-by-let; constants
`0.2`, `0.7`, `1.5`, `0.023`, `0.09` appear as exact rationals. -/
def mkBreakdown (store : PricingStore) (params : CostParameters)
    (instanceHourlyRate : ℚ) : CostBreakdown :=
  let instancesNeeded := calculateInstancesNeeded params.concurrentPlayers
  let daysPerMonth : ℚ := 30
  let peakHoursPerDay : ℚ := 8
  let baselineHoursPerDay : ℚ := 24 - peakHoursPerDay
  let baselineInstanceRatio : ℚ := 2/10
  let peakHoursPerMonth := peakHoursPerDay * daysPerMonth
  let peakCost := instancesNeeded * peakHoursPerMonth
  let offPeakHoursPerMonth := baselineHoursPerDay * daysPerMonth
  let offPeakCost := (instancesNeeded * baselineInstanceRatio) * offPeakHoursPerMonth
  let sessionDurationMultiplier :=
    min (1 + params.sessionDurationHours / 10) (15/10)
  let monthlyHours := peakCost + offPeakCost
  let adjustedMonthlyHours := monthlyHours * sessionDurationMultiplier
  let spotDiscount : ℚ := if params.fleetType = .spot then 7/10 else 1
  let computeHourlyRate := instanceHourlyRate * spotDiscount
  let computeMonthlyCost := computeHourlyRate * adjustedMonthlyHours * params.regionsCount
  let storageMonthlyRate := jsOrQ store.s3Standard (23/1000)
  let storageMonthlyCost := params.storageGB * storageMonthlyRate * params.regionsCount
  let dataTransferRate := jsOrQ store.internetOut (9/100)
  let dataTransferMonthlyCost := params.monthlyDataTransferGB * dataTransferRate
  let matchmakingCost := jsOrQ store.flexMatch 0
  let monitoringCost := jsOrQ store.monitoring 0
  let gameliftServiceTotal := matchmakingCost + monitoringCost
  let initialSetup := instancesNeeded * 10
  let monthlyOperational :=
    computeMonthlyCost + storageMonthlyCost + dataTransferMonthlyCost +
      gameliftServiceTotal
  { compute := {
      hourlyRate := computeHourlyRate
      instancesNeeded := instancesNeeded
      monthlyHours := adjustedMonthlyHours
      monthlyCost := computeMonthlyCost }
    storage := {
      sizeGB := params.storageGB
      monthlyCost := storageMonthlyCost }
    dataTransfer := {
      monthlyGB := params.monthlyDataTransferGB
      monthlyCost := dataTransferMonthlyCost }
    gameliftServices := {
      matchmakingCost := matchmakingCost
      monitoringCost := monitoringCost
      total := gameliftServiceTotal }
    total := {
      initialSetup := initialSetup
      monthlyOperational := monthlyOperational } }

/-- Source `calculateCosts` (`cost-calculator.ts`): resolves the hourly rate
(throwing the pricing-not-found error when the lookup yields nothing falsy,
i.e. `if (!instanceHourlyRate) throw ...`), then assembles the breakdown of
`mkBreakdown`. -/
def calculateCosts (store : PricingStore) (params : CostParameters)
    (region : String := "us-east-1") : Except CalcError CostBreakdown :=
  match getInstancePricing store params.instanceType region with
  | none => .error (.pricingNotFound params.instanceType region)
  | some instanceHourlyRate =>
    if instanceHourlyRate = 0 then
      .error (.pricingNotFound params.instanceType region)
    else
      .ok (mkBreakdown store params instanceHourlyRate)

/-! ### Seeded pricing data (pricing service, seeded by `seedPricingData`) -/

/-- Source constant `EC2_INSTANCE_PRICING` of the pricing service,
transcribed row by row. -/
def EC2_INSTANCE_PRICING : List (String × List InstancePricing) :=
  [("us-east-1",
    [{ instanceType := "c5.large", vcpus := 2, memory := "4 GiB", hourlyRate := some 0.085, gameLiftMultiplier := 1.5 },
     { instanceType := "c5.xlarge", vcpus := 4, memory := "8 GiB", hourlyRate := some 0.17, gameLiftMultiplier := 1.5 },
     { instanceType := "c5.2xlarge", vcpus := 8, memory := "16 GiB", hourlyRate := some 0.34, gameLiftMultiplier := 1.5 },
     { instanceType := "c5.4xlarge", vcpus := 16, memory := "32 GiB", hourlyRate := some 0.68, gameLiftMultiplier := 1.5 },
     { instanceType := "c6g.large", vcpus := 2, memory := "4 GiB", hourlyRate := some 0.068, gameLiftMultiplier := 1.5 },
     { instanceType := "c6g.xlarge", vcpus := 4, memory := "8 GiB", hourlyRate := some 0.136, gameLiftMultiplier := 1.5 },
     { instanceType := "c6g.2xlarge", vcpus := 8, memory := "16 GiB", hourlyRate := some 0.272, gameLiftMultiplier := 1.5 },
     { instanceType := "c6g.4xlarge", vcpus := 16, memory := "32 GiB", hourlyRate := some 0.544, gameLiftMultiplier := 1.5 },
     { instanceType := "m5.large", vcpus := 2, memory := "8 GiB", hourlyRate := some 0.096, gameLiftMultiplier := 1.5 },
     { instanceType := "m5.xlarge", vcpus := 4, memory := "16 GiB", hourlyRate := some 0.192, gameLiftMultiplier := 1.5 },
     { instanceType := "m5.2xlarge", vcpus := 8, memory := "32 GiB", hourlyRate := some 0.384, gameLiftMultiplier := 1.5 }]),
   ("us-west-2",
    [{ instanceType := "c5.large", vcpus := 2, memory := "4 GiB", hourlyRate := some 0.085, gameLiftMultiplier := 1.5 },
     { instanceType := "c5.xlarge", vcpus := 4, memory := "8 GiB", hourlyRate := some 0.17, gameLiftMultiplier := 1.5 },
     { instanceType := "c5.2xlarge", vcpus := 8, memory := "16 GiB", hourlyRate := some 0.34, gameLiftMultiplier := 1.5 },
     { instanceType := "c6g.large", vcpus := 2, memory := "4 GiB", hourlyRate := some 0.068, gameLiftMultiplier := 1.5 },
     { instanceType := "c6g.xlarge", vcpus := 4, memory := "8 GiB", hourlyRate := some 0.136, gameLiftMultiplier := 1.5 }]),
   ("eu-west-1",
    [{ instanceType := "c5.large", vcpus := 2, memory := "4 GiB", hourlyRate := some 0.094, gameLiftMultiplier := 1.5 },
     { instanceType := "c5.xlarge", vcpus := 4, memory := "8 GiB", hourlyRate := some 0.188, gameLiftMultiplier := 1.5 },
     { instanceType := "c5.2xlarge", vcpus := 8, memory := "16 GiB", hourlyRate := some 0.376, gameLiftMultiplier := 1.5 },
     { instanceType := "c6g.large", vcpus := 2, memory := "4 GiB", hourlyRate := some 0.075, gameLiftMultiplier := 1.5 },
     { instanceType := "c6g.xlarge", vcpus := 4, memory := "8 GiB", hourlyRate := some 0.15, gameLiftMultiplier := 1.5 }]),
   ("ap-southeast-1",
    [{ instanceType := "c5.large", vcpus := 2, memory := "4 GiB", hourlyRate := some 0.098, gameLiftMultiplier := 1.5 },
     { instanceType := "c5.xlarge", vcpus := 4, memory := "8 GiB", hourlyRate := some 0.196, gameLiftMultiplier := 1.5 },
     { instanceType := "c6g.large", vcpus := 2, memory := "4 GiB", hourlyRate := some 0.078, gameLiftMultiplier := 1.5 },
     { instanceType := "c6g.xlarge", vcpus := 4, memory := "8 GiB", hourlyRate := some 0.156, gameLiftMultiplier := 1.5 }])]

/-- The pricing store as populated by `seedPricingData`, numeric view: the
`ec2_instance` tables are the seeded `EC2_INSTANCE_PRICING`; the seeded
`storage` and `data_transfer` rows are arrays, so the scalar keys
`s3Standard` and `internetOut` that the calculator dereferences on them are
absent (`none`, sending the calculator to its hard-coded defaults); on the
seeded `gamelift_services` row the key `monitoring` is absent and the key
`flexMatch` holds an object, not a number (see the JS-value model below), so
neither contributes a number (`none` in this numeric view). -/
def seededPricingStore : PricingStore :=
  { ec2Tables := EC2_INSTANCE_PRICING
    s3Standard := none
    internetOut := none
    flexMatch := none
    monitoring := none }

namespace PricingService

/-- Helper `getInstancePricing` of the pricing service (distinct from the
homonymous function in `cost-calculator.ts`):
`EC2_INSTANCE_PRICING[region] || EC2_INSTANCE_PRICING['us-east-1']`
followed by `find` — an unknown region falls back to the `us-east-1` table,
and a missing instance id yields `undefined` rather than an error. -/
def getInstancePricing (instanceType region : String) :
    Option InstancePricing :=
  let regionPricing :=
    match lookupRegion EC2_INSTANCE_PRICING region with
    | some l => l
    | none => (lookupRegion EC2_INSTANCE_PRICING "us-east-1").getD []
  regionPricing.find? (fun p => p.instanceType == instanceType)

end PricingService

/-! ### Scenario generation (`generateCostScenarios`, `cost-calculator.ts`) -/

/-- Source `Partial<CostParameters>`: every field possibly absent. -/
structure PartialCostParameters where
  concurrentPlayers : Option ℚ := none
  sessionDurationHours : Option ℚ := none
  regionsCount : Option ℚ := none
  instanceType : Option String := none
  fleetType : Option FleetType := none
  storageGB : Option ℚ := none
  monthlyDataTransferGB : Option ℚ := none
deriving DecidableEq, Repr

/-- One element of the result of `generateCostScenarios`. -/
structure ScenarioResult where
  scenario : String
  params : CostParameters
  costs : CostBreakdown
deriving DecidableEq, Repr

/-- The `params` object built inside the loop of `generateCostScenarios`:
the preset overrides `concurrentPlayers` and `sessionDurationHours`, every
other field comes from `baseParams.x || default` (JavaScript truthiness:
a missing field, the number `0` and the empty string all fall back to the
defaults `1`, `'c5.large'`, `'on-demand'`, `10`, `100`; neither fleet-type
string is falsy, so only a missing `fleetType` falls back). -/
def scenarioParams (baseParams : PartialCostParameters)
    (concurrentPlayers sessionDurationHours : ℚ) : CostParameters :=
  { concurrentPlayers := concurrentPlayers
    sessionDurationHours := sessionDurationHours
    regionsCount := jsOrQ baseParams.regionsCount 1
    instanceType := jsOrStr baseParams.instanceType "c5.large"
    fleetType := baseParams.fleetType.getD .onDemand
    storageGB := jsOrQ baseParams.storageGB 10
    monthlyDataTransferGB := jsOrQ baseParams.monthlyDataTransferGB 100 }

/-- One iteration of the loop body of `generateCostScenarios`: builds the
`params` object (`scenarioParams`), awaits `calculateCosts` on it, and
pushes the labelled result. -/
def runScenario (store : PricingStore) (baseParams : PartialCostParameters)
    (region : String) (name : String)
    (concurrentPlayers sessionDurationHours : ℚ) :
    Except CalcError ScenarioResult := do
  let costs ← calculateCosts store
    (scenarioParams baseParams concurrentPlayers sessionDurationHours) region
  return { scenario := name,
           params := scenarioParams baseParams concurrentPlayers sessionDurationHours,
           costs := costs }

/-- Source `generateCostScenarios` (`cost-calculator.ts`): the loop over the
literal four-element `scenarios` array, pushing results in declaration
order; a thrown pricing error propagates. -/
def generateCostScenarios (store : PricingStore)
    (baseParams : PartialCostParameters) (region : String := "us-east-1") :
    Except CalcError (List ScenarioResult) := do
  let r1 ← runScenario store baseParams region "Low Traffic" 100 1
  let r2 ← runScenario store baseParams region "Medium Traffic" 500 2
  let r3 ← runScenario store baseParams region "High Traffic" 2000 3
  let r4 ← runScenario store baseParams region "Peak Traffic" 5000 2
  return [r1, r2, r3, r4]

/-! ### Alternative configurations (`scan-cost-optimization.ts`) -/

/-- Model of `baseParams.instanceType.startsWith('c5')`: Boolean prefix test,
stated on the character lists so that it evaluates by kernel reduction. -/
def jsStartsWith (s pre : String) : Bool :=
  pre.data.isPrefixOf s.data

/-- Source `getSmallerInstanceType` (`scan-cost-optimization.ts`): the
literal `sizeMap`; the three `.large` sizes map to `null` explicitly and
`sizeMap[unknown] || null` is `null`, both modelled as `none`. -/
def getSmallerInstanceType (currentType : String) : Option String :=
  match currentType with
  | "c5.4xlarge" => some "c5.2xlarge"
  | "c5.2xlarge" => some "c5.xlarge"
  | "c5.xlarge" => some "c5.large"
  | "c6g.4xlarge" => some "c6g.2xlarge"
  | "c6g.2xlarge" => some "c6g.xlarge"
  | "c6g.xlarge" => some "c6g.large"
  | "m5.4xlarge" => some "m5.2xlarge"
  | "m5.2xlarge" => some "m5.xlarge"
  | "m5.xlarge" => some "m5.large"
  | _ => none

/-- One element of the array returned by `generateAlternativeConfigurations`
(`scan-cost-optimization.ts`). -/
structure AlternativeConfiguration where
  name : String
  description : String
  monthlyEstimate : ℚ
  savingsPercentage : ℚ
  tradeoffs : List String
deriving DecidableEq, Repr

/-- First conditional push of `generateAlternativeConfigurations`: Graviton
instances, entered when the baseline instance type starts with `c5`. -/
def gravitonAlternative (store : PricingStore) (baseParams : CostParameters) :
    Except CalcError (List AlternativeConfiguration) :=
  if jsStartsWith baseParams.instanceType "c5" then do
    let gravitonCosts ← calculateCosts store
      { baseParams with instanceType := "c6g.large" } "us-east-1"
    let baseCosts ← calculateCosts store baseParams "us-east-1"
    pure [{ name := "AWS Graviton Instances"
            description := "Switch to ARM-based c6g instances for better price/performance"
            monthlyEstimate := gravitonCosts.total.monthlyOperational
            savingsPercentage := max 0 (((baseCosts.total.monthlyOperational -
              gravitonCosts.total.monthlyOperational) /
              baseCosts.total.monthlyOperational) * 100)
            tradeoffs := [
              "Requires ARM-compatible game server build",
              "May need code modifications for architecture compatibility",
              "Better energy efficiency and cost per vCPU"] }]
  else pure []

/-- Second conditional push: spot fleet, entered when the baseline fleet
type is on-demand. -/
def spotAlternative (store : PricingStore) (baseParams : CostParameters) :
    Except CalcError (List AlternativeConfiguration) :=
  if baseParams.fleetType = .onDemand then do
    let spotCosts ← calculateCosts store
      { baseParams with fleetType := .spot } "us-east-1"
    let currentCosts ← calculateCosts store baseParams "us-east-1"
    pure [{ name := "Spot Fleet Configuration"
            description := "Use EC2 Spot instances for up to 70% cost savings"
            monthlyEstimate := spotCosts.total.monthlyOperational
            savingsPercentage := max 0 (((currentCosts.total.monthlyOperational -
              spotCosts.total.monthlyOperational) /
              currentCosts.total.monthlyOperational) * 100)
            tradeoffs := [
              "Instances can be interrupted with 2-minute notice",
              "Requires graceful termination handling",
              "Best for flexible, fault-tolerant workloads",
              "GameLift handles instance replacement automatically"] }]
  else pure []

/-- Third conditional push: right-sized instances, entered when a smaller
size exists in the same family. -/
def smallerAlternative (store : PricingStore) (baseParams : CostParameters) :
    Except CalcError (List AlternativeConfiguration) :=
  match getSmallerInstanceType baseParams.instanceType with
  | some smallerInstance => do
    let smallerCosts ← calculateCosts store
      { baseParams with instanceType := smallerInstance } "us-east-1"
    let currentCosts ← calculateCosts store baseParams "us-east-1"
    pure [{ name := "Right-sized Instances"
            description := "Downsize to " ++ smallerInstance ++ " if current capacity is over-provisioned"
            monthlyEstimate := smallerCosts.total.monthlyOperational
            savingsPercentage := max 0 (((currentCosts.total.monthlyOperational -
              smallerCosts.total.monthlyOperational) /
              currentCosts.total.monthlyOperational) * 100)
            tradeoffs := [
              "Lower compute capacity per instance",
              "May need more instances for same player count",
              "Better utilization if current instances are underused"] }]
  | none => pure []

/-- Source `generateAlternativeConfigurations`
(`scan-cost-optimization.ts`): three independent conditionals each push at
most one alternative, in this order, into the result array; the unused
`submission` argument carries no numeric data and is omitted. -/
def generateAlternativeConfigurations (store : PricingStore)
    (baseParams : CostParameters) :
    Except CalcError (List AlternativeConfiguration) := do
  let a1 ← gravitonAlternative store baseParams
  let a2 ← spotAlternative store baseParams
  let a3 ← smallerAlternative store baseParams
  return a1 ++ a2 ++ a3

/-! ### JavaScript-value view of the seeded `gamelift_services` row

The calculator reads `gameliftPricing.flexMatch || 0` and
`gameliftPricing.monitoring || 0` off the untyped `pricingData` JSON of the
`gamelift_services` row; the seeded value of `flexMatch` is the object
`{ pricePerRequest: 0.000005 }`, not a number, and `monitoring` is absent.
-/

/-- Untyped JavaScript values, as far as the seeded pricing JSON needs:
numbers, strings, objects with named fields, and `undefined`. -/
inductive JSVal where
  | num (q : ℚ)
  | str (s : String)
  | obj (fields : List (String × JSVal))
  | undefined

/-- JavaScript property access `v.k`: a present field's value, `undefined`
for an absent field or a non-object receiver. -/
def JSVal.getField : JSVal → String → JSVal
  | .obj fields, k =>
    match fields.find? (fun p => p.1 == k) with
    | some p => p.2
    | none => .undefined
  | _, _ => .undefined

/-- JavaScript truthiness: `0` and the empty string are falsy, every object
is truthy, `undefined` is falsy. -/
def JSVal.truthy : JSVal → Bool
  | .num q => q != 0
  | .str s => s != ""
  | .obj _ => true
  | .undefined => false

/-- JavaScript `a || b`. -/
def JSVal.orElse (a b : JSVal) : JSVal :=
  if a.truthy then a else b

/-- Whether a JavaScript value is a number. -/
def JSVal.isNum : JSVal → Bool
  | .num _ => true
  | _ => false

/-- Source constant `GAMELIFT_SERVICE_COSTS` of the pricing service, the
object stored verbatim as the `pricingData` of the seeded
`gamelift_services` row. -/
def GAMELIFT_SERVICE_COSTS : JSVal :=
  .obj [
    ("matchmaking", .obj [
      ("pricePerRequest", .num 0.000001),
      ("includedRequests", .num 1000000)]),
    ("flexMatch", .obj [
      ("pricePerRequest", .num 0.000005)]),
    ("queuePlacement", .obj [
      ("pricePerRequest", .num 0)])]

/-- Line `const matchmakingCost = gameliftPricing.flexMatch || 0` of
`calculateCosts`, evaluated on the raw JSON value. -/
def jsMatchmakingCost (gameliftPricing : JSVal) : JSVal :=
  (gameliftPricing.getField "flexMatch").orElse (.num 0)

/-- Line `const monitoringCost = gameliftPricing.monitoring || 0` of
`calculateCosts`, evaluated on the raw JSON value. -/
def jsMonitoringCost (gameliftPricing : JSVal) : JSVal :=
  (gameliftPricing.getField "monitoring").orElse (.num 0)

end CostCalc

namespace CostCalc

/-! ### General helper lemmas -/

/-- A successful rate resolution makes `calculateCosts` return the
assembled breakdown. -/
theorem calculateCosts_ok (store : PricingStore) (params : CostParameters)
    (region : String) (r : ℚ)
    (hres : getInstancePricing store params.instanceType region = some r)
    (hr : r ≠ 0) :
    calculateCosts store params region = .ok (mkBreakdown store params r) := by
  simp [calculateCosts, hres, hr]

/-- A failed rate resolution makes `calculateCosts` raise the
pricing-not-found error. -/
theorem calculateCosts_error (store : PricingStore) (params : CostParameters)
    (region : String)
    (hres : getInstancePricing store params.instanceType region = none) :
    calculateCosts store params region =
      .error (.pricingNotFound params.instanceType region) := by
  simp [calculateCosts, hres]

theorem mkBreakdown_instancesNeeded (store : PricingStore)
    (params : CostParameters) (r : ℚ) :
    (mkBreakdown store params r).compute.instancesNeeded =
      calculateInstancesNeeded params.concurrentPlayers := rfl

theorem mkBreakdown_monthlyHours (store : PricingStore)
    (params : CostParameters) (r : ℚ) :
    (mkBreakdown store params r).compute.monthlyHours =
      (calculateInstancesNeeded params.concurrentPlayers * (8 * 30) +
        (calculateInstancesNeeded params.concurrentPlayers * (2/10)) * ((24 - 8) * 30)) *
        min (1 + params.sessionDurationHours / 10) (15/10) := rfl

theorem mkBreakdown_monthlyCost (store : PricingStore)
    (params : CostParameters) (r : ℚ) :
    (mkBreakdown store params r).compute.monthlyCost =
      (r * (if params.fleetType = .spot then 7/10 else 1)) *
        (mkBreakdown store params r).compute.monthlyHours *
        params.regionsCount := rfl

theorem seeded_c5large_us_east_1 :
    getInstancePricing seededPricingStore "c5.large" "us-east-1" = some 0.085 := by
  norm_num [getInstancePricing, lookupRegion, seededPricingStore,
    EC2_INSTANCE_PRICING, List.find?]

/-- The section-3 invariants on traffic parameters: positive integer player
and region counts, positive session duration, non-negative storage and
transfer volumes. -/
def ValidParams (p : CostParameters) : Prop :=
  (∃ n : ℕ, p.concurrentPlayers = n) ∧ 1 ≤ p.concurrentPlayers ∧
    0 < p.sessionDurationHours ∧
    (∃ n : ℕ, p.regionsCount = n) ∧ 1 ≤ p.regionsCount ∧
    0 ≤ p.storageGB ∧ 0 ≤ p.monthlyDataTransferGB

/-- The section-8 example parameters: 1000 concurrent players, 2-hour
sessions, one region, on-demand `c5.large`, 10 GB storage, 100 GB
transfer. -/
def exampleParams : CostParameters :=
  { concurrentPlayers := 1000
    sessionDurationHours := 2
    regionsCount := 1
    instanceType := "c5.large"
    fleetType := .onDemand
    storageGB := 10
    monthlyDataTransferGB := 100 }

theorem exampleParams_valid : ValidParams exampleParams := by
  refine ⟨⟨1000, by norm_num [exampleParams]⟩, ?_, ?_, ⟨1, by norm_num [exampleParams]⟩, ?_, ?_, ?_⟩ <;>
    norm_num [exampleParams]

/-! ### C1 -/

/-- C1: for every `TrafficParameters` satisfying the section-3 invariants
(and whose instance type resolves to a nonzero rate, so that a breakdown is
returned at all), `calculateCosts` computes
`instancesNeeded = ceil(concurrentPlayers / 50)` and
`compute.monthlyHours =
  (instancesNeeded * 8*30 + instancesNeeded * 0.2 * (16*30)) *
    min (1 + sessionDurationHours / 10) 1.5`. -/
theorem instancesNeeded_and_monthlyHours_formula (store : PricingStore)
    (params : CostParameters) (region : String) (r : ℚ)
    (_hvalid : ValidParams params)
    (hres : getInstancePricing store params.instanceType region = some r)
    (hr : r ≠ 0) :
    ∃ b, calculateCosts store params region = .ok b ∧
      b.compute.instancesNeeded = ((⌈params.concurrentPlayers / 50⌉ : ℤ) : ℚ) ∧
      b.compute.monthlyHours =
        (((⌈params.concurrentPlayers / 50⌉ : ℤ) : ℚ) * (8 * 30) +
          ((⌈params.concurrentPlayers / 50⌉ : ℤ) : ℚ) * (2/10) * (16 * 30)) *
          min (1 + params.sessionDurationHours / 10) (15/10) := by
  refine ⟨mkBreakdown store params r, calculateCosts_ok store params region r hres hr, ?_, ?_⟩
  · rw [mkBreakdown_instancesNeeded]
    unfold calculateInstancesNeeded
    rw [mathCeil_eq_ceil]
  · rw [mkBreakdown_monthlyHours]
    unfold calculateInstancesNeeded
    rw [mathCeil_eq_ceil]
    ring_nf

/-- C1 witness: the section-8 example (1000 players, 2-hour sessions)
against the seeded us-east-1 table yields `instancesNeeded = 20` and
`monthlyHours = 8064`. -/
theorem instancesNeeded_and_monthlyHours_formula_witness :
    (calculateCosts seededPricingStore exampleParams "us-east-1").toOption.map
      (fun b => (b.compute.instancesNeeded, b.compute.monthlyHours)) =
      some (20, 8064) := by
  obtain ⟨b, hok, hinst, hhours⟩ :=
    instancesNeeded_and_monthlyHours_formula seededPricingStore exampleParams
      "us-east-1" 0.085 exampleParams_valid seeded_c5large_us_east_1 (by norm_num)
  rw [hok]
  simp only [Except.toOption, Option.map_some']
  rw [hinst, hhours]
  norm_num [exampleParams]

end CostCalc

namespace CostCalc

/-! ### C2 -/

/-- C2 counterexample: against the seeded us-east-1 table (rate `0.085`,
platform multiplier `1.5`) the section-8 example yields
`compute.monthlyCost = 685.44 = 0.085 * 1 * 8064 * 1`; composing the rate
with the entry's platform multiplier, as the claim states, would give
`0.085 * 1.5 * 1 * 8064 * 1 = 1028.16`, which is not the returned value: the
calculator never applies `gameLiftMultiplier`. -/
theorem platform_multiplier_not_applied :
    (calculateCosts seededPricingStore exampleParams "us-east-1").toOption.map
        (fun b => b.compute.monthlyCost) = some 685.44 ∧
    (calculateCosts seededPricingStore exampleParams "us-east-1").toOption.map
        (fun b => b.compute.monthlyCost) ≠
      some ((0.085 : ℚ) * 1.5 * 1 * 8064 * 1) := by
  have hok := calculateCosts_ok seededPricingStore exampleParams "us-east-1"
    0.085 seeded_c5large_us_east_1 (by norm_num)
  constructor
  · rw [hok]
    simp only [Except.toOption, Option.map_some']
    rw [mkBreakdown_monthlyCost, mkBreakdown_monthlyHours]
    norm_num [exampleParams, calculateInstancesNeeded, mathCeil_eq_ceil,
      show FleetType.onDemand ≠ FleetType.spot from by decide]
  · rw [hok]
    simp only [Except.toOption, Option.map_some']
    rw [mkBreakdown_monthlyCost, mkBreakdown_monthlyHours]
    norm_num [exampleParams, calculateInstancesNeeded, mathCeil_eq_ceil,
      show FleetType.onDemand ≠ FleetType.spot from by decide]

/-- C2 amended: whenever the rate resolves, `compute.monthlyCost` is the
resolved hourly rate times the spot discount (`0.7` for spot, `1.0` for
on-demand) times `monthlyHours` times `regionsCount`, with no platform
multiplier applied; consequently the spot variant of any parameter set costs
exactly `0.7` times its on-demand variant. -/
theorem compute_monthlyCost_formula_and_spot_ratio (store : PricingStore)
    (params : CostParameters) (region : String) (r : ℚ)
    (hres : getInstancePricing store params.instanceType region = some r)
    (hr : r ≠ 0) :
    ∃ b, calculateCosts store params region = .ok b ∧
      b.compute.monthlyCost =
        r * (if params.fleetType = .spot then 7/10 else 1) *
          b.compute.monthlyHours * params.regionsCount ∧
      ∃ bs bo,
        calculateCosts store { params with fleetType := .spot } region = .ok bs ∧
        calculateCosts store { params with fleetType := .onDemand } region = .ok bo ∧
        bs.compute.monthlyCost = (7/10) * bo.compute.monthlyCost := by
  have hress : getInstancePricing store
      ({ params with fleetType := .spot } : CostParameters).instanceType region = some r := hres
  have hreso : getInstancePricing store
      ({ params with fleetType := .onDemand } : CostParameters).instanceType region = some r := hres
  refine ⟨mkBreakdown store params r,
    calculateCosts_ok store params region r hres hr, ?_,
    mkBreakdown store { params with fleetType := .spot } r,
    mkBreakdown store { params with fleetType := .onDemand } r,
    calculateCosts_ok store _ region r hress hr,
    calculateCosts_ok store _ region r hreso hr, ?_⟩
  · rw [mkBreakdown_monthlyCost]
  · rw [mkBreakdown_monthlyCost, mkBreakdown_monthlyCost,
      mkBreakdown_monthlyHours, mkBreakdown_monthlyHours]
    simp [show FleetType.onDemand ≠ FleetType.spot from by decide]
    ring

/-- C2 amended witness at the section-8 example: spot costs `0.7` times the
on-demand figure. -/
theorem compute_monthlyCost_formula_and_spot_ratio_witness :
    ∃ b, calculateCosts seededPricingStore exampleParams "us-east-1" = .ok b ∧
      b.compute.monthlyCost =
        (0.085 : ℚ) * (if exampleParams.fleetType = .spot then 7/10 else 1) *
          b.compute.monthlyHours * exampleParams.regionsCount ∧
      ∃ bs bo,
        calculateCosts seededPricingStore
          { exampleParams with fleetType := .spot } "us-east-1" = .ok bs ∧
        calculateCosts seededPricingStore
          { exampleParams with fleetType := .onDemand } "us-east-1" = .ok bo ∧
        bs.compute.monthlyCost = (7/10) * bo.compute.monthlyCost :=
  compute_monthlyCost_formula_and_spot_ratio seededPricingStore exampleParams
    "us-east-1" 0.085 seeded_c5large_us_east_1 (by norm_num)

end CostCalc

namespace CostCalc

/-! ### C3 -/

/-- C3 counterexample: the region `mars` is absent from the loaded tables,
yet the pricing service's `getInstancePricing` resolves `c5.large` there by
silently substituting the `us-east-1` table instead of failing. -/
theorem pricing_service_region_fallback :
    lookupRegion EC2_INSTANCE_PRICING "mars" = none ∧
    PricingService.getInstancePricing "c5.large" "mars" =
      some { instanceType := "c5.large", vcpus := 2, memory := "4 GiB",
             hourlyRate := some 0.085, gameLiftMultiplier := 1.5 } :=
  ⟨rfl, rfl⟩

/-- C3 amended: `calculateCosts` (through its storage-backed lookup) fails
with the pricing-not-found error for every `(instanceType, region)` pair
absent from the loaded tables — an unknown region as well as a missing
instance id — and never returns a breakdown there; the pricing-service
helper `getInstancePricing`, by contrast, substitutes the `us-east-1` table
for an unknown region (see the counterexample). -/
theorem calculator_pricing_miss_errors (store : PricingStore)
    (params : CostParameters) (region : String)
    (hmiss : lookupRegion store.ec2Tables region = none ∨
      ∃ entries, lookupRegion store.ec2Tables region = some entries ∧
        entries.find? (fun item => item.instanceType == params.instanceType) =
          none) :
    calculateCosts store params region =
      .error (.pricingNotFound params.instanceType region) := by
  apply calculateCosts_error
  rcases hmiss with h | ⟨entries, he, hf⟩
  · simp [getInstancePricing, h]
  · simp [getInstancePricing, he, hf]

/-- C3 amended witness: the calculator rejects the unknown region `mars`
with the pricing-not-found error. -/
theorem calculator_pricing_miss_errors_witness :
    calculateCosts seededPricingStore exampleParams "mars" =
      .error (.pricingNotFound "c5.large" "mars") :=
  calculator_pricing_miss_errors seededPricingStore exampleParams "mars"
    (Or.inl rfl)

/-! ### C4 -/

/-- The section-8 example with `concurrentPlayers` zeroed out, violating the
positivity invariant of section 3. -/
def zeroPlayersParams : CostParameters :=
  { exampleParams with concurrentPlayers := 0 }

/-- C4 counterexample: `concurrentPlayers = 0` violates the section-3
invariant, yet `calculateCosts` raises no validation error and returns a
computed breakdown (with `instancesNeeded = 0`). -/
theorem invalid_params_not_rejected :
    zeroPlayersParams.concurrentPlayers < 1 ∧
    (calculateCosts seededPricingStore zeroPlayersParams "us-east-1").toOption.map
      (fun b => b.compute.instancesNeeded) = some 0 := by
  constructor
  · norm_num [zeroPlayersParams, exampleParams]
  · have hok := calculateCosts_ok seededPricingStore zeroPlayersParams
      "us-east-1" 0.085 seeded_c5large_us_east_1 (by norm_num)
    rw [hok]
    simp only [Except.toOption, Option.map_some']
    rw [mkBreakdown_instancesNeeded]
    norm_num [zeroPlayersParams, exampleParams, calculateInstancesNeeded,
      mathCeil_eq_ceil]

/-- C4 amended: `calculateCosts` validates nothing: on every input — the
section-3 invariants satisfied or not — it either raises the
pricing-not-found error (the only error it has) or returns a computed
breakdown; out-of-range parameters are neither rejected nor clamped but flow
into the arithmetic. -/
theorem no_validation_error_path (store : PricingStore)
    (params : CostParameters) (region : String) :
    calculateCosts store params region =
        .error (.pricingNotFound params.instanceType region) ∨
    ∃ b, calculateCosts store params region = .ok b := by
  unfold calculateCosts
  cases h : getInstancePricing store params.instanceType region with
  | none => exact Or.inl rfl
  | some r =>
    by_cases hr : r = 0
    · exact Or.inl (by simp [hr])
    · exact Or.inr ⟨mkBreakdown store params r, by simp [hr]⟩

/-! ### C5 -/

/-- C5: evaluated on the seeded `gamelift_services` row, the line
`gameliftPricing.flexMatch || 0` of `calculateCosts` produces the object
`{ pricePerRequest: 0.000005 }` — a truthy non-number — so the returned
`gameliftServices.matchmakingCost` (declared `number` in the `CostBreakdown`
interface) is not a number, and the totals built from it degrade to string
concatenation; `gameliftPricing.monitoring || 0` falls back to the number
`0` because the key is absent. -/
theorem seeded_flexMatch_not_numeric :
    jsMatchmakingCost GAMELIFT_SERVICE_COSTS =
      JSVal.obj [("pricePerRequest", JSVal.num 0.000005)] ∧
    (jsMatchmakingCost GAMELIFT_SERVICE_COSTS).isNum = false ∧
    jsMonitoringCost GAMELIFT_SERVICE_COSTS = JSVal.num 0 :=
  ⟨rfl, rfl, rfl⟩

end CostCalc

namespace CostCalc

/-! ### C6 -/

theorem calculateInstancesNeeded_mono {a b : ℚ} (h : a ≤ b) :
    calculateInstancesNeeded a ≤ calculateInstancesNeeded b := by
  unfold calculateInstancesNeeded
  rw [mathCeil_eq_ceil, mathCeil_eq_ceil]
  have : ⌈a / 50⌉ ≤ ⌈b / 50⌉ := Int.ceil_le_ceil (by gcongr)
  exact_mod_cast this

theorem calculateInstancesNeeded_nonneg {a : ℚ} (h : 0 ≤ a) :
    0 ≤ calculateInstancesNeeded a := by
  unfold calculateInstancesNeeded
  rw [mathCeil_eq_ceil]
  have : (0 : ℤ) ≤ ⌈a / 50⌉ := Int.ceil_nonneg (by positivity)
  exact_mod_cast this

/-- C6: for two valid parameter sets that differ only in
`concurrentPlayers`, against the same pricing store, the larger player count
yields at least as many instances and at least as large a
`compute.monthlyCost`. -/
theorem concurrentPlayers_monotonicity (store : PricingStore)
    (p1 p2 : CostParameters) (region : String) (r : ℚ)
    (hdiff : p2 = { p1 with concurrentPlayers := p2.concurrentPlayers })
    (hle : p1.concurrentPlayers ≤ p2.concurrentPlayers)
    (hres : getInstancePricing store p1.instanceType region = some r)
    (hr : 0 < r) (hv1 : ValidParams p1) :
    ∃ b1 b2, calculateCosts store p1 region = .ok b1 ∧
      calculateCosts store p2 region = .ok b2 ∧
      b1.compute.instancesNeeded ≤ b2.compute.instancesNeeded ∧
      b1.compute.monthlyCost ≤ b2.compute.monthlyCost := by
  have hres2 : getInstancePricing store p2.instanceType region = some r := by
    rw [hdiff]
    exact hres
  refine ⟨mkBreakdown store p1 r, mkBreakdown store p2 r,
    calculateCosts_ok store p1 region r hres hr.ne',
    calculateCosts_ok store p2 region r hres2 hr.ne', ?_, ?_⟩
  · rw [mkBreakdown_instancesNeeded, mkBreakdown_instancesNeeded]
    exact calculateInstancesNeeded_mono hle
  · rw [mkBreakdown_monthlyCost, mkBreakdown_monthlyCost,
      mkBreakdown_monthlyHours, mkBreakdown_monthlyHours]
    have hsess : p2.sessionDurationHours = p1.sessionDurationHours := by
      rw [hdiff]
    have hfleet : p2.fleetType = p1.fleetType := by
      rw [hdiff]
    have hreg : p2.regionsCount = p1.regionsCount := by
      rw [hdiff]
    rw [hsess, hfleet, hreg]
    set n1 := calculateInstancesNeeded p1.concurrentPlayers with hn1
    set n2 := calculateInstancesNeeded p2.concurrentPlayers with hn2
    have hn : n1 ≤ n2 := calculateInstancesNeeded_mono hle
    set s : ℚ := if p1.fleetType = FleetType.spot then 7/10 else 1 with hs
    have hs0 : 0 < s := by
      rw [hs]
      split <;> norm_num
    set m : ℚ := min (1 + p1.sessionDurationHours / 10) (15/10) with hm
    have hm0 : 0 < m := by
      rw [hm]
      have h1 : (0:ℚ) < 1 + p1.sessionDurationHours / 10 := by
        have := hv1.2.2.1
        linarith
      exact lt_min h1 (by norm_num)
    have hreg0 : (0:ℚ) ≤ p1.regionsCount := by
      have := hv1.2.2.2.2.1
      linarith
    have key : ∀ n : ℚ, r * s * ((n * (8 * 30) + n * (2/10) * ((24 - 8) * 30)) * m) *
        p1.regionsCount = (r * s * m * p1.regionsCount * 336) * n := by
      intro n
      ring
    rw [key n1, key n2]
    have hcoeff : (0:ℚ) ≤ r * s * m * p1.regionsCount * 336 := by
      have h1 : (0:ℚ) ≤ r * s := le_of_lt (mul_pos hr hs0)
      have h2 : (0:ℚ) ≤ r * s * m := mul_nonneg h1 hm0.le
      have h3 : (0:ℚ) ≤ r * s * m * p1.regionsCount := mul_nonneg h2 hreg0
      nlinarith
    exact mul_le_mul_of_nonneg_left hn hcoeff

/-- C6 witness: doubling the section-8 example's players from 1000 to 2000
does not decrease instances or compute cost. -/
theorem concurrentPlayers_monotonicity_witness :
    ∃ b1 b2, calculateCosts seededPricingStore exampleParams "us-east-1" = .ok b1 ∧
      calculateCosts seededPricingStore
        { exampleParams with concurrentPlayers := 2000 } "us-east-1" = .ok b2 ∧
      b1.compute.instancesNeeded ≤ b2.compute.instancesNeeded ∧
      b1.compute.monthlyCost ≤ b2.compute.monthlyCost :=
  concurrentPlayers_monotonicity seededPricingStore exampleParams
    { exampleParams with concurrentPlayers := 2000 } "us-east-1" 0.085 rfl
    (by norm_num [exampleParams]) seeded_c5large_us_east_1 (by norm_num)
    exampleParams_valid

end CostCalc

namespace CostCalc

/-! ### Scenario-generation lemmas (C7, C8) -/

theorem runScenario_eval (store : PricingStore) (base : PartialCostParameters)
    (region name : String) (players sess r : ℚ)
    (hres : getInstancePricing store (scenarioParams base players sess).instanceType
      region = some r)
    (hr : r ≠ 0) :
    runScenario store base region name players sess =
      .ok { scenario := name, params := scenarioParams base players sess,
            costs := mkBreakdown store (scenarioParams base players sess) r } := by
  unfold runScenario
  rw [calculateCosts_ok store (scenarioParams base players sess) region r hres hr]
  rfl

theorem generateCostScenarios_eval (store : PricingStore)
    (base : PartialCostParameters) (region : String) (r : ℚ)
    (hres : getInstancePricing store (jsOrStr base.instanceType "c5.large")
      region = some r)
    (hr : r ≠ 0) :
    generateCostScenarios store base region = .ok
      [{ scenario := "Low Traffic", params := scenarioParams base 100 1,
         costs := mkBreakdown store (scenarioParams base 100 1) r },
       { scenario := "Medium Traffic", params := scenarioParams base 500 2,
         costs := mkBreakdown store (scenarioParams base 500 2) r },
       { scenario := "High Traffic", params := scenarioParams base 2000 3,
         costs := mkBreakdown store (scenarioParams base 2000 3) r },
       { scenario := "Peak Traffic", params := scenarioParams base 5000 2,
         costs := mkBreakdown store (scenarioParams base 5000 2) r }] := by
  have h : ∀ players sess : ℚ, ∀ name : String,
      runScenario store base region name players sess =
        .ok { scenario := name, params := scenarioParams base players sess,
              costs := mkBreakdown store (scenarioParams base players sess) r } :=
    fun players sess name =>
      runScenario_eval store base region name players sess r hres hr
  unfold generateCostScenarios
  rw [h, h, h, h]
  rfl

theorem runScenario_ok_shape (store : PricingStore)
    (base : PartialCostParameters) (region name : String) (players sess : ℚ)
    (result : ScenarioResult)
    (h : runScenario store base region name players sess = .ok result) :
    result.scenario = name ∧ result.params = scenarioParams base players sess := by
  unfold runScenario at h
  cases hc : calculateCosts store (scenarioParams base players sess) region with
  | error e =>
    rw [hc] at h
    simp [Bind.bind, Except.bind] at h
  | ok b =>
    rw [hc] at h
    simp only [Bind.bind, Except.bind, pure, Except.pure, Except.ok.injEq] at h
    rw [← h]
    exact ⟨rfl, rfl⟩

/-- Whenever `generateCostScenarios` returns, its list consists of the four
presets in declaration order. -/
theorem generateCostScenarios_ok_shape (store : PricingStore)
    (base : PartialCostParameters) (region : String) (l : List ScenarioResult)
    (hok : generateCostScenarios store base region = .ok l) :
    l.map (fun s => s.scenario) =
      ["Low Traffic", "Medium Traffic", "High Traffic", "Peak Traffic"] ∧
    l.map (fun s => s.params) =
      [scenarioParams base 100 1, scenarioParams base 500 2,
       scenarioParams base 2000 3, scenarioParams base 5000 2] := by
  unfold generateCostScenarios at hok
  cases h1 : runScenario store base region "Low Traffic" 100 1 with
  | error e =>
    rw [h1] at hok
    simp [Bind.bind, Except.bind] at hok
  | ok r1 =>
  rw [h1] at hok
  cases h2 : runScenario store base region "Medium Traffic" 500 2 with
  | error e =>
    rw [h2] at hok
    simp [Bind.bind, Except.bind] at hok
  | ok r2 =>
  rw [h2] at hok
  cases h3 : runScenario store base region "High Traffic" 2000 3 with
  | error e =>
    rw [h3] at hok
    simp [Bind.bind, Except.bind] at hok
  | ok r3 =>
  rw [h3] at hok
  cases h4 : runScenario store base region "Peak Traffic" 5000 2 with
  | error e =>
    rw [h4] at hok
    simp [Bind.bind, Except.bind] at hok
  | ok r4 =>
  rw [h4] at hok
  simp only [Bind.bind, Except.bind, pure, Except.pure, Except.ok.injEq] at hok
  obtain ⟨hs1, hp1⟩ := runScenario_ok_shape store base region "Low Traffic" 100 1 r1 h1
  obtain ⟨hs2, hp2⟩ := runScenario_ok_shape store base region "Medium Traffic" 500 2 r2 h2
  obtain ⟨hs3, hp3⟩ := runScenario_ok_shape store base region "High Traffic" 2000 3 r3 h3
  obtain ⟨hs4, hp4⟩ := runScenario_ok_shape store base region "Peak Traffic" 5000 2 r4 h4
  rw [← hok]
  simp [hs1, hp1, hs2, hp2, hs3, hp3, hs4, hp4]

end CostCalc

namespace CostCalc

/-! ### C7 -/

/-- A caller-supplied base whose `storageGB` is the (falsy) number `0`. -/
def zeroStorageBase : PartialCostParameters :=
  { regionsCount := some 2
    instanceType := some "c5.large"
    fleetType := some .spot
    storageGB := some 0
    monthlyDataTransferGB := some 50 }

/-- C7 counterexample: the caller supplies `storageGB = 0` (a legal,
non-negative value), yet every generated scenario carries `storageGB = 10`:
the `baseParams.storageGB || 10` fallback replaces any falsy supplied value,
so the base fields are not carried through unchanged. -/
theorem falsy_base_field_replaced :
    zeroStorageBase.storageGB = some 0 ∧
    (generateCostScenarios seededPricingStore zeroStorageBase
        "us-east-1").toOption.map
      (fun l => l.map (fun s => s.params.storageGB)) = some [10, 10, 10, 10] := by
  refine ⟨rfl, ?_⟩
  rw [generateCostScenarios_eval seededPricingStore zeroStorageBase "us-east-1"
    0.085 (by simpa [jsOrStr, zeroStorageBase] using seeded_c5large_us_east_1)
    (by norm_num)]
  simp [Except.toOption, scenarioParams, jsOrQ, zeroStorageBase]

/-- C7 amended: when every base field the scenario generator copies is
supplied and truthy (nonzero numbers, a nonempty instance type, a present
fleet type), each generated scenario carries `regionsCount`, `instanceType`,
`fleetType`, `storageGB` and `monthlyDataTransferGB` unchanged, and its
`concurrentPlayers` / `sessionDurationHours` come from the four presets;
falsy or missing base fields are instead replaced by the defaults
`1`, `c5.large`, `on-demand`, `10`, `100` (see the counterexample). -/
theorem truthy_base_fields_carried (store : PricingStore)
    (base : PartialCostParameters) (region : String)
    (rc sg dt : ℚ) (it : String) (ft : FleetType)
    (hrc : base.regionsCount = some rc) (hrc0 : rc ≠ 0)
    (hit : base.instanceType = some it) (hit0 : it ≠ "")
    (hft : base.fleetType = some ft)
    (hsg : base.storageGB = some sg) (hsg0 : sg ≠ 0)
    (hdt : base.monthlyDataTransferGB = some dt) (hdt0 : dt ≠ 0)
    (l : List ScenarioResult)
    (hok : generateCostScenarios store base region = .ok l) :
    ∀ s ∈ l, s.params.regionsCount = rc ∧ s.params.instanceType = it ∧
      s.params.fleetType = ft ∧ s.params.storageGB = sg ∧
      s.params.monthlyDataTransferGB = dt ∧
      (s.params.concurrentPlayers, s.params.sessionDurationHours) ∈
        [((100 : ℚ), (1 : ℚ)), (500, 2), (2000, 3), (5000, 2)] := by
  obtain ⟨-, hparams⟩ := generateCostScenarios_ok_shape store base region l hok
  intro s hs
  have hmem : s.params ∈ l.map (fun s => s.params) := List.mem_map_of_mem _ hs
  rw [hparams] at hmem
  have hfields : ∀ players sess : ℚ,
      s.params = scenarioParams base players sess →
      s.params.regionsCount = rc ∧ s.params.instanceType = it ∧
        s.params.fleetType = ft ∧ s.params.storageGB = sg ∧
        s.params.monthlyDataTransferGB = dt ∧
        s.params.concurrentPlayers = players ∧
        s.params.sessionDurationHours = sess := by
    intro players sess hp
    rw [hp]
    refine ⟨?_, ?_, ?_, ?_, ?_, rfl, rfl⟩ <;>
      simp [scenarioParams, jsOrQ, jsOrStr, hrc, hrc0, hit, hit0, hft, hsg,
        hsg0, hdt, hdt0]
  simp only [List.mem_cons, List.not_mem_nil, or_false] at hmem
  rcases hmem with hp | hp | hp | hp
  all_goals {
    obtain ⟨h1, h2, h3, h4, h5, h6, h7⟩ := hfields _ _ hp
    refine ⟨h1, h2, h3, h4, h5, ?_⟩
    rw [h6, h7]
    simp }

/-- C7 amended witness: a fully-supplied truthy base is carried through all
four scenarios. -/
theorem truthy_base_fields_carried_witness :
    ∃ l, generateCostScenarios seededPricingStore
        { regionsCount := some 3, instanceType := some "c5.xlarge",
          fleetType := some .spot, storageGB := some 25,
          monthlyDataTransferGB := some 500 } "us-east-1" = .ok l ∧
      ∀ s ∈ l, s.params.regionsCount = 3 ∧ s.params.instanceType = "c5.xlarge" ∧
        s.params.fleetType = .spot ∧ s.params.storageGB = 25 ∧
        s.params.monthlyDataTransferGB = 500 ∧
        (s.params.concurrentPlayers, s.params.sessionDurationHours) ∈
          [((100 : ℚ), (1 : ℚ)), (500, 2), (2000, 3), (5000, 2)] := by
  have hres0 : getInstancePricing seededPricingStore "c5.xlarge" "us-east-1" =
      some 0.17 := by
    norm_num [getInstancePricing, lookupRegion, seededPricingStore,
      EC2_INSTANCE_PRICING, List.find?,
      (by decide : ("c5.large" == "c5.xlarge") = false)]
  have hres : getInstancePricing seededPricingStore
      (jsOrStr (some "c5.xlarge") "c5.large") "us-east-1" = some 0.17 := by
    rw [show jsOrStr (some "c5.xlarge") "c5.large" = "c5.xlarge" from rfl]
    exact hres0
  have heval := generateCostScenarios_eval seededPricingStore
    { regionsCount := some 3, instanceType := some "c5.xlarge",
      fleetType := some .spot, storageGB := some 25,
      monthlyDataTransferGB := some 500 } "us-east-1" 0.17 hres (by norm_num)
  exact ⟨_, heval,
    truthy_base_fields_carried seededPricingStore _ "us-east-1" 3 25 500
      "c5.xlarge" .spot rfl (by norm_num) rfl (by decide) rfl rfl
      (by norm_num) rfl (by norm_num) _ heval⟩

/-! ### C8 -/

/-- C8: whenever `generateCostScenarios` returns, it returns exactly four
results, in preset declaration order — Low Traffic (100 players, 1 h),
Medium Traffic (500, 2 h), High Traffic (2000, 3 h), Peak Traffic
(5000, 2 h) — regardless of the resulting costs. -/
theorem scenario_order_and_presets (store : PricingStore)
    (base : PartialCostParameters) (region : String) (l : List ScenarioResult)
    (hok : generateCostScenarios store base region = .ok l) :
    l.length = 4 ∧
    l.map (fun s => s.scenario) =
      ["Low Traffic", "Medium Traffic", "High Traffic", "Peak Traffic"] ∧
    l.map (fun s => (s.params.concurrentPlayers, s.params.sessionDurationHours)) =
      [(100, 1), (500, 2), (2000, 3), (5000, 2)] := by
  obtain ⟨hnames, hparams⟩ := generateCostScenarios_ok_shape store base region l hok
  refine ⟨?_, hnames, ?_⟩
  · have := congrArg List.length hnames
    simpa using this
  · have : l.map (fun s => (s.params.concurrentPlayers, s.params.sessionDurationHours)) =
        (l.map (fun s => s.params)).map
          (fun p => (p.concurrentPlayers, p.sessionDurationHours)) := by
      rw [List.map_map]
      rfl
    rw [this, hparams]
    simp [scenarioParams]

/-- C8 witness: against the seeded store with an empty base, the four
scenarios come back in declaration order. -/
theorem scenario_order_and_presets_witness :
    ∃ l, generateCostScenarios seededPricingStore {} "us-east-1" = .ok l ∧
      l.length = 4 ∧
      l.map (fun s => s.scenario) =
        ["Low Traffic", "Medium Traffic", "High Traffic", "Peak Traffic"] ∧
      l.map (fun s => (s.params.concurrentPlayers, s.params.sessionDurationHours)) =
        [(100, 1), (500, 2), (2000, 3), (5000, 2)] := by
  have heval := generateCostScenarios_eval seededPricingStore {} "us-east-1"
    0.085 (by simpa [jsOrStr] using seeded_c5large_us_east_1) (by norm_num)
  exact ⟨_, heval, scenario_order_and_presets seededPricingStore {} "us-east-1" _ heval⟩

end CostCalc

namespace CostCalc

/-! ### Alternative-configuration lemmas (C9) -/

theorem gravitonAlternative_savings (store : PricingStore)
    (baseParams : CostParameters) (baseCosts : CostBreakdown)
    (lb : List AlternativeConfiguration)
    (hbase : calculateCosts store baseParams "us-east-1" = .ok baseCosts)
    (h : gravitonAlternative store baseParams = .ok lb) :
    ∀ a ∈ lb, a.savingsPercentage =
      max 0 ((baseCosts.total.monthlyOperational - a.monthlyEstimate) /
        baseCosts.total.monthlyOperational * 100) := by
  unfold gravitonAlternative at h
  split at h
  · cases hg : calculateCosts store
        { baseParams with instanceType := "c6g.large" } "us-east-1" with
    | error e =>
      rw [hg] at h
      simp [Bind.bind, Except.bind] at h
    | ok g =>
      rw [hg] at h
      simp only [Bind.bind, Except.bind] at h
      rw [hbase] at h
      simp only [pure, Except.pure, Except.ok.injEq] at h
      rw [← h]
      intro a ha
      simp only [List.mem_singleton] at ha
      rw [ha]
  · simp only [pure, Except.pure, Except.ok.injEq] at h
    rw [← h]
    intro a ha
    simp at ha

theorem spotAlternative_savings (store : PricingStore)
    (baseParams : CostParameters) (baseCosts : CostBreakdown)
    (lb : List AlternativeConfiguration)
    (hbase : calculateCosts store baseParams "us-east-1" = .ok baseCosts)
    (h : spotAlternative store baseParams = .ok lb) :
    ∀ a ∈ lb, a.savingsPercentage =
      max 0 ((baseCosts.total.monthlyOperational - a.monthlyEstimate) /
        baseCosts.total.monthlyOperational * 100) := by
  unfold spotAlternative at h
  split at h
  · cases hg : calculateCosts store
        { baseParams with fleetType := .spot } "us-east-1" with
    | error e =>
      rw [hg] at h
      simp [Bind.bind, Except.bind] at h
    | ok g =>
      rw [hg] at h
      simp only [Bind.bind, Except.bind] at h
      rw [hbase] at h
      simp only [pure, Except.pure, Except.ok.injEq] at h
      rw [← h]
      intro a ha
      simp only [List.mem_singleton] at ha
      rw [ha]
  · simp only [pure, Except.pure, Except.ok.injEq] at h
    rw [← h]
    intro a ha
    simp at ha

theorem smallerAlternative_savings (store : PricingStore)
    (baseParams : CostParameters) (baseCosts : CostBreakdown)
    (lb : List AlternativeConfiguration)
    (hbase : calculateCosts store baseParams "us-east-1" = .ok baseCosts)
    (h : smallerAlternative store baseParams = .ok lb) :
    ∀ a ∈ lb, a.savingsPercentage =
      max 0 ((baseCosts.total.monthlyOperational - a.monthlyEstimate) /
        baseCosts.total.monthlyOperational * 100) := by
  unfold smallerAlternative at h
  split at h
  case h_1 smallerInstance heq =>
    cases hg : calculateCosts store
        { baseParams with instanceType := smallerInstance } "us-east-1" with
    | error e =>
      rw [hg] at h
      simp [Bind.bind, Except.bind] at h
    | ok g =>
      rw [hg] at h
      simp only [Bind.bind, Except.bind] at h
      rw [hbase] at h
      simp only [pure, Except.pure, Except.ok.injEq] at h
      rw [← h]
      intro a ha
      simp only [List.mem_singleton] at ha
      rw [ha]
  case h_2 heq =>
    simp only [pure, Except.pure, Except.ok.injEq] at h
    rw [← h]
    intro a ha
    simp at ha

/-! ### C9 -/

/-- C9: every alternative produced by `generateAlternativeConfigurations`
reports `savingsPercentage = max 0 ((baselineMonthly - altMonthly) /
baselineMonthly * 100)`, hence never a negative savings percentage. -/
theorem savings_percentage_clamped (store : PricingStore)
    (baseParams : CostParameters) (baseCosts : CostBreakdown)
    (alts : List AlternativeConfiguration)
    (hbase : calculateCosts store baseParams "us-east-1" = .ok baseCosts)
    (halts : generateAlternativeConfigurations store baseParams = .ok alts) :
    ∀ a ∈ alts, a.savingsPercentage =
        max 0 ((baseCosts.total.monthlyOperational - a.monthlyEstimate) /
          baseCosts.total.monthlyOperational * 100) ∧
      0 ≤ a.savingsPercentage := by
  unfold generateAlternativeConfigurations at halts
  cases h1 : gravitonAlternative store baseParams with
  | error e =>
    rw [h1] at halts
    simp [Bind.bind, Except.bind] at halts
  | ok a1 =>
  rw [h1] at halts
  cases h2 : spotAlternative store baseParams with
  | error e =>
    rw [h2] at halts
    simp [Bind.bind, Except.bind] at halts
  | ok a2 =>
  rw [h2] at halts
  cases h3 : smallerAlternative store baseParams with
  | error e =>
    rw [h3] at halts
    simp [Bind.bind, Except.bind] at halts
  | ok a3 =>
  rw [h3] at halts
  simp only [Bind.bind, Except.bind, pure, Except.pure, Except.ok.injEq] at halts
  intro a ha
  rw [← halts] at ha
  have hprop : a.savingsPercentage =
      max 0 ((baseCosts.total.monthlyOperational - a.monthlyEstimate) /
        baseCosts.total.monthlyOperational * 100) := by
    rcases List.mem_append.mp ha with hA | h3m
    · rcases List.mem_append.mp hA with h1m | h2m
      · exact gravitonAlternative_savings store baseParams baseCosts a1 hbase h1 a h1m
      · exact spotAlternative_savings store baseParams baseCosts a2 hbase h2 a h2m
    · exact smallerAlternative_savings store baseParams baseCosts a3 hbase h3 a h3m
  refine ⟨hprop, ?_⟩
  rw [hprop]
  exact le_max_left _ _

end CostCalc

namespace CostCalc

/-! ### Evaluation lemmas for the C9 witness -/

theorem gravitonAlternative_eval (store : PricingStore)
    (baseParams : CostParameters) (g b : CostBreakdown)
    (hc : jsStartsWith baseParams.instanceType "c5" = true)
    (hg : calculateCosts store { baseParams with instanceType := "c6g.large" }
      "us-east-1" = .ok g)
    (hb : calculateCosts store baseParams "us-east-1" = .ok b) :
    gravitonAlternative store baseParams = .ok
      [{ name := "AWS Graviton Instances"
         description := "Switch to ARM-based c6g instances for better price/performance"
         monthlyEstimate := g.total.monthlyOperational
         savingsPercentage := max 0 (((b.total.monthlyOperational -
           g.total.monthlyOperational) / b.total.monthlyOperational) * 100)
         tradeoffs := [
           "Requires ARM-compatible game server build",
           "May need code modifications for architecture compatibility",
           "Better energy efficiency and cost per vCPU"] }] := by
  unfold gravitonAlternative
  rw [if_pos hc, hg]
  simp only [Bind.bind, Except.bind]
  rw [hb]
  rfl

theorem spotAlternative_eval (store : PricingStore)
    (baseParams : CostParameters) (g b : CostBreakdown)
    (hc : baseParams.fleetType = .onDemand)
    (hg : calculateCosts store { baseParams with fleetType := .spot }
      "us-east-1" = .ok g)
    (hb : calculateCosts store baseParams "us-east-1" = .ok b) :
    spotAlternative store baseParams = .ok
      [{ name := "Spot Fleet Configuration"
         description := "Use EC2 Spot instances for up to 70% cost savings"
         monthlyEstimate := g.total.monthlyOperational
         savingsPercentage := max 0 (((b.total.monthlyOperational -
           g.total.monthlyOperational) / b.total.monthlyOperational) * 100)
         tradeoffs := [
           "Instances can be interrupted with 2-minute notice",
           "Requires graceful termination handling",
           "Best for flexible, fault-tolerant workloads",
           "GameLift handles instance replacement automatically"] }] := by
  unfold spotAlternative
  rw [if_pos hc, hg]
  simp only [Bind.bind, Except.bind]
  rw [hb]
  rfl

theorem smallerAlternative_eval_none (store : PricingStore)
    (baseParams : CostParameters)
    (h : getSmallerInstanceType baseParams.instanceType = none) :
    smallerAlternative store baseParams = .ok [] := by
  unfold smallerAlternative
  rw [h]
  rfl

theorem generateAlternativeConfigurations_eval (store : PricingStore)
    (baseParams : CostParameters)
    (l1 l2 l3 : List AlternativeConfiguration)
    (h1 : gravitonAlternative store baseParams = .ok l1)
    (h2 : spotAlternative store baseParams = .ok l2)
    (h3 : smallerAlternative store baseParams = .ok l3) :
    generateAlternativeConfigurations store baseParams = .ok (l1 ++ l2 ++ l3) := by
  unfold generateAlternativeConfigurations
  rw [h1]
  simp only [Bind.bind, Except.bind]
  rw [h2]
  simp only [Bind.bind, Except.bind]
  rw [h3]
  rfl

theorem seeded_c6glarge_us_east_1 :
    getInstancePricing seededPricingStore "c6g.large" "us-east-1" = some 0.068 := by
  norm_num [getInstancePricing, lookupRegion, seededPricingStore,
    EC2_INSTANCE_PRICING, List.find?,
    (by decide : ("c5.large" == "c6g.large") = false),
    (by decide : ("c5.xlarge" == "c6g.large") = false),
    (by decide : ("c5.2xlarge" == "c6g.large") = false),
    (by decide : ("c5.4xlarge" == "c6g.large") = false)]

/-- C9 witness: on the seeded store with the section-8 example baseline
(`c5.large`, on-demand) the Graviton and Spot alternatives are produced, and
each reports the clamped, non-negative savings percentage. -/
theorem savings_percentage_clamped_witness :
    ∃ baseCosts alts,
      calculateCosts seededPricingStore exampleParams "us-east-1" = .ok baseCosts ∧
      generateAlternativeConfigurations seededPricingStore exampleParams = .ok alts ∧
      ∀ a ∈ alts, a.savingsPercentage =
          max 0 ((baseCosts.total.monthlyOperational - a.monthlyEstimate) /
            baseCosts.total.monthlyOperational * 100) ∧
        0 ≤ a.savingsPercentage := by
  have hb := calculateCosts_ok seededPricingStore exampleParams "us-east-1"
    0.085 seeded_c5large_us_east_1 (by norm_num)
  have hg := calculateCosts_ok seededPricingStore
    { exampleParams with instanceType := "c6g.large" } "us-east-1"
    0.068 seeded_c6glarge_us_east_1 (by norm_num)
  have hs := calculateCosts_ok seededPricingStore
    { exampleParams with fleetType := .spot } "us-east-1"
    0.085 seeded_c5large_us_east_1 (by norm_num)
  have h1 := gravitonAlternative_eval seededPricingStore exampleParams _ _
    (by decide) hg hb
  have h2 := spotAlternative_eval seededPricingStore exampleParams _ _
    rfl hs hb
  have h3 := smallerAlternative_eval_none seededPricingStore exampleParams rfl
  have halts := generateAlternativeConfigurations_eval seededPricingStore
    exampleParams _ _ _ h1 h2 h3
  exact ⟨_, _, hb, halts,
    savings_percentage_clamped seededPricingStore exampleParams _ _ hb halts⟩

/-! ### C10 -/

/-- C10: if the region's table contains an entry for the requested instance
type but its `hourlyRate` is `0` or missing, `calculateCosts` raises the
pricing-not-found error instead of returning a zero-compute-cost breakdown:
the lookup's `instanceData?.hourlyRate || null` treats any falsy rate as an
absent price. -/
theorem falsy_hourly_rate_treated_absent (store : PricingStore)
    (params : CostParameters) (region : String)
    (entries : List InstancePricing) (entry : InstancePricing)
    (hreg : lookupRegion store.ec2Tables region = some entries)
    (hfind : entries.find? (fun item => item.instanceType == params.instanceType) =
      some entry)
    (hrate : entry.hourlyRate = some 0 ∨ entry.hourlyRate = none) :
    calculateCosts store params region =
      .error (.pricingNotFound params.instanceType region) := by
  apply calculateCosts_error
  rcases hrate with h | h <;>
    simp [getInstancePricing, hreg, hfind, h]

/-- A store whose only entry carries an explicit zero hourly rate. -/
def zeroRateStore : PricingStore :=
  { ec2Tables := [("test-region",
      [{ instanceType := "c5.large", vcpus := 2, memory := "4 GiB",
         hourlyRate := some 0, gameLiftMultiplier := 1.5 }])]
    s3Standard := none
    internetOut := none
    flexMatch := none
    monitoring := none }

/-- C10 witness: a matching entry with `hourlyRate = 0` makes
`calculateCosts` fail with the pricing-not-found error. -/
theorem falsy_hourly_rate_treated_absent_witness :
    calculateCosts zeroRateStore exampleParams "test-region" =
      .error (.pricingNotFound "c5.large" "test-region") :=
  falsy_hourly_rate_treated_absent zeroRateStore exampleParams "test-region"
    _ _ rfl rfl (Or.inl rfl)

end CostCalc
